import Mathlib

/-!
Shallow embedding of the rust-lox bytecode VM and compiler
(src/include/vm.hpp, src/include/compiler.hpp, src/include/opcode.hpp).

Machine doubles are modelled as rationals; the operand stack is a list with
the top of stack at the head; bytes are naturals with the OpCode enum values
CONSTANT = 0 ... RETURN = 20 from opcode.hpp.  The pieces of the repository
that live outside src/ (chunk.hpp, scanner.hpp) are modelled from the spec
where needed and are marked as such.
-/

namespace Lox

/-- Modelled from the spec: the runtime Value, a tagged variant over Nil, Bool,
Number (f64, modelled as Rat) and String (the variant itself lives in chunk.hpp,
which is not under src/; its four cases are pinned down by the uses in vm.hpp). -/
inductive Value where
  | nil : Value
  | bool (b : Bool) : Value
  | num (x : Rat) : Value
  | str (s : String) : Value
deriving DecidableEq

/-- FalseyVistor from vm.hpp: a Bool maps to its negation, monostate (Nil) maps to
true, and the catch-all template overload returns true for every other case. -/
def isFalsey : Value → Bool
  | Value.bool b => !b
  | Value.nil => true
  | Value.num _ => true
  | Value.str _ => true

/-- Value equality as std::variant operator== behaves: values holding different
alternatives compare unequal, values holding the same alternative compare by
payload. -/
def valueEq : Value → Value → Bool
  | Value.nil, Value.nil => true
  | Value.bool a, Value.bool b => a == b
  | Value.num a, Value.num b => a == b
  | Value.str a, Value.str b => a == b
  | _, _ => false

/-- Whether two Values hold the same variant alternative (std::variant index
equality). -/
def sameCase : Value → Value → Bool
  | Value.nil, Value.nil => true
  | Value.bool _, Value.bool _ => true
  | Value.num _, Value.num _ => true
  | Value.str _, Value.str _ => true
  | _, _ => false

/-- Modelled from the spec: the Chunk (chunk.hpp is not under src/): an ordered
byte vector `code`, a parallel `lines` vector (one source line per byte), and the
`constants` pool of Values. -/
structure Chunk where
  code : List Nat
  lines : List Nat
  constants : List Value
deriving DecidableEq

/-- Observable VM state: the instruction position, the operand stack (head is the
top of stack), the globals table, and the text written so far to stdout and
stderr (each entry one write). -/
structure VMState where
  pos : Nat
  stack : List Value
  globals : List (String × Value)
  stdoutLines : List String
  stderrLines : List String
deriving DecidableEq

/-- The InterpretResult enum from vm.hpp. -/
inductive InterpretResult where
  | ok : InterpretResult
  | compileError : InterpretResult
  | runtimeError : InterpretResult
deriving DecidableEq

/-- Result of one dispatch iteration: continue, leave run() with a status, or an
uncaught C++ exception (out-of-range .at, bad_variant_access) escaping run(). -/
inductive StepResult where
  | next (s : VMState) : StepResult
  | halt (r : InterpretResult) (s : VMState) : StepResult
  | crash (s : VMState) : StepResult
deriving DecidableEq

/-- Lookup in the globals map (std::unordered_map::find, keys compared by
value). -/
def globalsFind : List (String × Value) → String → Option Value
  | [], _ => none
  | (k, v) :: rest, key => if k = key then some v else globalsFind rest key

/-- Update-or-insert in the globals map (globals[name] = v). -/
def globalsSet : List (String × Value) → String → Value → List (String × Value)
  | [], key, v => [(key, v)]
  | (k, w) :: rest, key, v =>
      if k = key then (k, v) :: rest else (k, w) :: globalsSet rest key v

/-- Modelled from the spec: the display form PRINT writes (operator<< for Value
is defined outside src/): Nil shows as nil, Bool as true/false, Number as a
decimal, String as its raw characters. -/
def displayValue : Value → String
  | Value.nil => "nil"
  | Value.bool true => "true"
  | Value.bool false => "false"
  | Value.num x => toString x
  | Value.str s => s

/-- VM::runTimeError: append the message plus a newline to stderr, then read the
byte stored at pos - 1 and use that byte VALUE as the index into the line table,
append the frame line, and reset the stack.  The returned flag records whether
lines.at (or code.at) threw std::out_of_range, which no caller catches. -/
def runTimeError (ch : Chunk) (s : VMState) (msg : String) : VMState × Bool :=
  let s1 : VMState := { s with stderrLines := s.stderrLines ++ [msg ++ "\n"] }
  match ch.code[s.pos - 1]? with
  | none => (s1, true)
  | some instruction =>
    match ch.lines[instruction]? with
    | none => (s1, true)
    | some line =>
      ({ s1 with
          stderrLines := s1.stderrLines ++ ["[line " ++ toString line ++ "] in script\n"],
          stack := [] }, false)

/-- Result of VM::binaryOp plus the state it leaves behind: success, the caught
type error, or undefined behaviour (stack underflow) modelled as a crash. -/
inductive BinRes where
  | okS (s : VMState) : BinRes
  | errS (s : VMState) : BinRes
  | crashS (s : VMState) : BinRes
deriving DecidableEq

/-- VM::binaryOp: a := peek() (top of stack), b := peek(1); if both hold doubles,
pop both and push op a b; otherwise std::get throws and the handler raises the
runtime error "Operands must be numbers.".  With fewer than two entries the
source reads below the stack base (undefined behaviour), modelled as a crash. -/
def binaryOp (ch : Chunk) (s : VMState) (op : Rat → Rat → Value) : BinRes :=
  match s.stack with
  | Value.num a :: Value.num b :: rest => BinRes.okS { s with stack := op a b :: rest }
  | _ :: _ :: _ =>
    let p := runTimeError ch s "Operands must be numbers."
    if p.2 then BinRes.crashS p.1 else BinRes.errS p.1
  | _ => BinRes.crashS s

/-- The BINARY_OP macro in VM::run: run binaryOp and, when it fails, leave the
loop returning InterpretResult::COMPILE_ERROR (sic - this is what the source
returns on a runtime type error). -/
def binaryOpMacro (ch : Chunk) (s : VMState) (op : Rat → Rat → Value) : StepResult :=
  match binaryOp ch s op with
  | BinRes.okS s2 => StepResult.next s2
  | BinRes.errS s2 => StepResult.halt InterpretResult.compileError s2
  | BinRes.crashS s2 => StepResult.crash s2

/-- The overloaded visitor of the ADD case in VM::run, applied to
(peek(1), peek(0)): two doubles add, two strings concatenate with the deeper
operand first, any other pair is the error case.  The operands are only peeked;
pops happen inside the success branches alone. -/
def addVisit : Value → Value → Option Value
  | Value.num d1, Value.num d2 => some (Value.num (d1 + d2))
  | Value.str s1, Value.str s2 => some (Value.str (s1 ++ s2))
  | _, _ => none

/-- One iteration of the dispatch loop in VM::run.  Byte values follow the
OpCode enum of opcode.hpp (CONSTANT = 0 ... RETURN = 20).  Bytes with no case in
the source's switch - SET_LOCAL = 8, GET_LOCAL = 9, and anything past RETURN -
fall through the switch and do nothing. -/
def step (ch : Chunk) (s0 : VMState) : StepResult :=
  match ch.code[s0.pos]? with
  | none => StepResult.crash s0
  | some b =>
    let s : VMState := { s0 with pos := s0.pos + 1 }
    match b with
    | 0 =>
      -- CONSTANT
      match ch.code[s.pos]? with
      | none => StepResult.crash s
      | some idx =>
        let s2 : VMState := { s with pos := s.pos + 1 }
        match ch.constants[idx]? with
        | none => StepResult.crash s2
        | some v => StepResult.next { s2 with stack := v :: s2.stack }
    | 1 => StepResult.next { s with stack := Value.nil :: s.stack }
    | 2 => StepResult.next { s with stack := Value.bool true :: s.stack }
    | 3 => StepResult.next { s with stack := Value.bool false :: s.stack }
    | 4 =>
      -- POP
      match s.stack with
      | _ :: rest => StepResult.next { s with stack := rest }
      | [] => StepResult.crash s
    | 5 =>
      -- DEFINE_GLOBAL
      match ch.code[s.pos]? with
      | none => StepResult.crash s
      | some idx =>
        let s2 : VMState := { s with pos := s.pos + 1 }
        match ch.constants[idx]? with
        | some (Value.str name) =>
          match s2.stack with
          | v :: rest =>
            StepResult.next { s2 with stack := rest, globals := globalsSet s2.globals name v }
          | [] => StepResult.crash s2
        | _ => StepResult.crash s2
    | 6 =>
      -- GET_GLOBAL
      match ch.code[s.pos]? with
      | none => StepResult.crash s
      | some idx =>
        let s2 : VMState := { s with pos := s.pos + 1 }
        match ch.constants[idx]? with
        | some (Value.str name) =>
          match globalsFind s2.globals name with
          | none =>
            let p := runTimeError ch s2 ("Undefined variable \x27" ++ name ++ "\x27.")
            if p.2 then StepResult.crash p.1
            else StepResult.halt InterpretResult.runtimeError p.1
          | some v => StepResult.next { s2 with stack := v :: s2.stack }
        | _ => StepResult.crash s2
    | 7 =>
      -- SET_GLOBAL
      match ch.code[s.pos]? with
      | none => StepResult.crash s
      | some idx =>
        let s2 : VMState := { s with pos := s.pos + 1 }
        match ch.constants[idx]? with
        | some (Value.str name) =>
          match globalsFind s2.globals name with
          | none =>
            let p := runTimeError ch s2 ("Undefined variable \x27" ++ name ++ "\x27.")
            if p.2 then StepResult.crash p.1
            else StepResult.halt InterpretResult.runtimeError p.1
          | some _ =>
            match s2.stack with
            | v :: _ => StepResult.next { s2 with globals := globalsSet s2.globals name v }
            | [] => StepResult.crash s2
        | _ => StepResult.crash s2
    | 10 =>
      -- EQUAL
      match s.stack with
      | a :: b :: rest => StepResult.next { s with stack := Value.bool (valueEq a b) :: rest }
      | _ => StepResult.crash s
    | 11 => binaryOpMacro ch s (fun b a => Value.bool (decide (a > b)))
    | 12 => binaryOpMacro ch s (fun b a => Value.bool (decide (a < b)))
    | 13 =>
      -- ADD
      match s.stack with
      | r :: l :: rest =>
        match addVisit l r with
        | some v => StepResult.next { s with stack := v :: rest }
        | none =>
          let p := runTimeError ch s "Operands must be two numbers or two strings."
          if p.2 then StepResult.crash p.1
          else StepResult.halt InterpretResult.runtimeError p.1
      | _ => StepResult.crash s
    | 14 => binaryOpMacro ch s (fun b a => Value.num (a - b))
    | 15 => binaryOpMacro ch s (fun b a => Value.num (a * b))
    | 16 => binaryOpMacro ch s (fun b a => Value.num (a / b))
    | 17 =>
      -- NEGATE
      match s.stack with
      | Value.num d :: rest => StepResult.next { s with stack := Value.num (-d) :: rest }
      | _ :: _ =>
        let p := runTimeError ch s "Operand must be a number."
        if p.2 then StepResult.crash p.1
        else StepResult.halt InterpretResult.runtimeError p.1
      | [] => StepResult.crash s
    | 18 =>
      -- NOT
      match s.stack with
      | v :: rest => StepResult.next { s with stack := Value.bool (isFalsey v) :: rest }
      | [] => StepResult.crash s
    | 19 =>
      -- PRINT
      match s.stack with
      | v :: rest =>
        StepResult.next
          { s with stack := rest, stdoutLines := s.stdoutLines ++ [displayValue v ++ "\n"] }
      | [] => StepResult.crash s
    | 20 => StepResult.halt InterpretResult.ok s
    | _ => StepResult.next s

/-- Outcome of running the loop with bounded fuel. -/
inductive RunResult where
  | done (r : InterpretResult) (s : VMState) : RunResult
  | crashed (s : VMState) : RunResult
  | outOfFuel (s : VMState) : RunResult
deriving DecidableEq

/-- VM::run: iterate the dispatch loop. -/
def run (ch : Chunk) : Nat → VMState → RunResult
  | 0, s => RunResult.outOfFuel s
  | Nat.succ fuel, s =>
    match step ch s with
    | StepResult.next s2 => run ch fuel s2
    | StepResult.halt r s2 => RunResult.done r s2
    | StepResult.crash s2 => RunResult.crashed s2

/-- VM::interpret(std::string_view): compile the source; on failure return
COMPILE_ERROR without running anything; otherwise run the chunk from position 0.
The compile step is passed as a function (the Pratt compiler plus the scanner;
the scanner is outside src/), with `none` standing for compile returning false.
An overall `none` means the run crashed or the fuel ran out. -/
def interpret (compile : String → Option Chunk) (fuel : Nat) (vm : VMState)
    (src : String) : Option (InterpretResult × VMState) :=
  match compile src with
  | none => some (InterpretResult.compileError, vm)
  | some ch =>
    match run ch fuel { vm with pos := 0 } with
    | RunResult.done r s => some (r, s)
    | RunResult.crashed _ => none
    | RunResult.outOfFuel _ => none

/-- Modelled from the spec: Chunk::addConstant (chunk.hpp is not under src/):
append a Value to the constant pool and return its index. -/
def addConstant (ch : Chunk) (v : Value) : Chunk × Nat :=
  ({ ch with constants := ch.constants ++ [v] }, ch.constants.length)

/-- Compilation::makeConstant: add the constant, cast the returned index to
uint8_t (mod 256), and only then compare it with UINT8_MAX; the error branch
reports "Too many constants in one chunk" and returns byte 0.  The result is
(chunk, operand byte, whether the error fired). -/
def makeConstant (ch : Chunk) (v : Value) : Chunk × Nat × Bool :=
  let r := addConstant ch v
  let constant := r.2 % 256
  if constant > 255 then (r.1, 0, true) else (r.1, constant, false)

/-- Modelled from the spec: the token kinds (scanner.hpp is not under src/); the
order follows the rule-table comments in compiler.hpp.  Only Eof and Error are
inspected by errorAt. -/
inductive TokenType where
  | LeftParen | RightParen | LeftBrace | RightBrace | Comma | Dot
  | Minus | Plus | Semicolon | Slash | Star
  | Bang | BangEqual | Equal | EqualEqual
  | Greater | GreaterEqual | Less | LessEqual
  | Identifier | StringLit | NumberLit
  | And | Class | Else | False | For | Fun | If | Nil | Or
  | Print | Return | Super | This | True | Var | While
  | Error | Eof
deriving DecidableEq

/-- Token as the scanner produces it: kind, lexeme text, source line. -/
structure Token where
  type : TokenType
  text : String
  line : Nat
deriving DecidableEq

/-- The two error flags of Parser (the token cursor and scanner play no part in
errorAt). -/
structure ParserFlags where
  panicMode : Bool
  hadError : Bool
deriving DecidableEq

/-- errorAt from compiler.hpp: while panicMode is set, drop the report; otherwise
set panicMode, write one diagnostic line to stderr, and set hadError.  The
location part is " at end" for Eof, empty for Error tokens, and " at " followed
by the raw lexeme otherwise. -/
def errorAt (p : ParserFlags) (tok : Token) (msg : String) : ParserFlags × List String :=
  if p.panicMode then (p, [])
  else
    (⟨true, true⟩,
     ["[line " ++ toString tok.line ++ "] Error" ++
      (if tok.type = TokenType.Eof then " at end"
       else if tok.type = TokenType.Error then "" else " at " ++ tok.text) ++
      ": " ++ msg ++ "\n"])

/-- Chunk the compiler emits for reading local slot 0: GET_LOCAL 0; RETURN. -/
def getLocalChunk : Chunk := ⟨[9, 0, 20], [1, 1, 1], []⟩

/-- Chunk with SET_LOCAL 0; RETURN. -/
def setLocalChunk : Chunk := ⟨[8, 0, 20], [1, 1, 1], []⟩

/-- Chunk with NOT; RETURN. -/
def notChunk : Chunk := ⟨[18, 20], [1, 1], []⟩

/-- Chunk with EQUAL; RETURN. -/
def eqChunk : Chunk := ⟨[10, 20], [1, 1], []⟩

/-- Two-byte chunk holding one binary opcode then RETURN. -/
def binChunk (b : Nat) : Chunk := ⟨[b, 20], [1, 1], []⟩

/-- Fourteen-byte chunk starting with ADD, all on source line 5; long enough that
runTimeError's line lookup lines.at(13) stays in range. -/
def addChunk : Chunk :=
  ⟨[13, 20, 20, 20, 20, 20, 20, 20, 20, 20, 20, 20, 20, 20],
   [5, 5, 5, 5, 5, 5, 5, 5, 5, 5, 5, 5, 5, 5], []⟩

/-- Sixteen-byte chunk: six NIL;POP pairs, then TRUE; TRUE; SUBTRACT; RETURN,
with SUBTRACT on source line 7 (and lines.at(14) = 7 in range). -/
def subErrChunk : Chunk :=
  ⟨[1, 4, 1, 4, 1, 4, 1, 4, 1, 4, 1, 4, 2, 2, 14, 20],
   [1, 1, 2, 2, 3, 3, 4, 4, 5, 5, 6, 6, 7, 7, 7, 7], []⟩

/-- Twenty-byte chunk: NIL, eight NIL;POP pairs, TRUE, NEGATE, RETURN, with byte
i on source line i + 1; NEGATE (byte value 17) sits at position 18 on line 19. -/
def negErrChunk : Chunk :=
  ⟨[1, 1, 4, 1, 4, 1, 4, 1, 4, 1, 4, 1, 4, 1, 4, 1, 4, 2, 17, 20],
   [1, 2, 3, 4, 5, 6, 7, 8, 9, 10, 11, 12, 13, 14, 15, 16, 17, 18, 19, 20], []⟩

/-- Chunk whose constant pool already holds 256 Values. -/
def fullConstChunk : Chunk := ⟨[], [], List.replicate 256 (Value.num 0)⟩

/-- C1: refuted on the code.  VM::run's switch has no GET_LOCAL or SET_LOCAL
case: the opcode byte is read and silently ignored (the slot operand is not even
consumed), nothing is pushed and nothing is stored; running the emitted sequence
GET_LOCAL 0; RETURN then decodes the slot byte 0 as CONSTANT and crashes in
constants.at. -/
theorem C1_locals_unhandled :
    (∀ (st : List Value) (g : List (String × Value)) (o e : List String),
        step getLocalChunk ⟨0, st, g, o, e⟩ = StepResult.next ⟨1, st, g, o, e⟩) ∧
    (∀ (st : List Value) (g : List (String × Value)) (o e : List String),
        step setLocalChunk ⟨0, st, g, o, e⟩ = StepResult.next ⟨1, st, g, o, e⟩) ∧
    run getLocalChunk 10 ⟨0, [Value.num 42], [], [], []⟩ =
      RunResult.crashed ⟨3, [Value.num 42], [], [], []⟩ :=
  ⟨fun _ _ _ _ => rfl, fun _ _ _ _ => rfl, by decide⟩

/-- C2: refuted on the code.  FalseyVistor's catch-all template overload returns
true, so every non-Bool non-Nil Value counts as falsey: NOT on Number 0 and on
the empty string pushes true, not false as claimed.  NOT on Nil and Bool(false)
pushes true and NOT on Bool(true) pushes false, as claimed. -/
theorem C2_not_truthiness :
    step notChunk ⟨0, [Value.num 0], [], [], []⟩ =
      StepResult.next ⟨1, [Value.bool true], [], [], []⟩ ∧
    step notChunk ⟨0, [Value.str ""], [], [], []⟩ =
      StepResult.next ⟨1, [Value.bool true], [], [], []⟩ ∧
    isFalsey (Value.num 0) = true ∧
    isFalsey (Value.str "") = true ∧
    isFalsey Value.nil = true ∧
    isFalsey (Value.bool false) = true ∧
    isFalsey (Value.bool true) = false := by
  decide

/-- C3: refuted on the code.  On TRUE; TRUE; SUBTRACT the message is written and
the stack reset, but the run returns COMPILE_ERROR: the failure branch of the
BINARY_OP macro returns InterpretResult::COMPILE_ERROR, not RUNTIME_ERROR. -/
theorem C3_binary_status :
    run subErrChunk 32 ⟨0, [], [], [], []⟩ =
      RunResult.done InterpretResult.compileError
        ⟨15, [], [], [], ["Operands must be numbers.\n", "[line 7] in script\n"]⟩ := by
  decide

set_option maxRecDepth 4000 in
/-- C4: refuted on the code.  makeConstant casts the new constant-pool index to
uint8_t BEFORE comparing it with UINT8_MAX, so the comparison is always false:
the "Too many constants in one chunk" error can never fire, and the 257th
constant (index 256) silently gets operand byte 0. -/
theorem C4_makeConstant_dead_check :
    (∀ (ch : Chunk) (v : Value), (makeConstant ch v).2.2 = false) ∧
    (makeConstant fullConstChunk (Value.num 1)).2 = (0, false) ∧
    (addConstant fullConstChunk (Value.num 1)).2 = 256 := by
  refine ⟨fun ch v => ?_, by decide, by decide⟩
  have h : ¬ (addConstant ch v).2 % 256 > 255 := by
    have := Nat.mod_lt (addConstant ch v).2 (show 0 < 256 by norm_num)
    omega
  simp [makeConstant, h]

/-- C5: refuted on the code.  runTimeError indexes the line table with the VALUE
of the byte at pos - 1 (here the NEGATE opcode, 17) instead of with the position
pos - 1 = 18: it reports line 18 = lines[17] where the line recorded for the
executed byte is lines[18] = 19. -/
theorem C5_wrong_line :
    run negErrChunk 64 ⟨0, [], [], [], []⟩ =
      RunResult.done InterpretResult.runtimeError
        ⟨19, [], [], [], ["Operand must be a number.\n", "[line 18] in script\n"]⟩ ∧
    negErrChunk.lines[18]? = some 19 := by
  decide

/-- C6: confirmed.  ADD type-checks by peeking the top two values (addVisit is
applied to peek(1) and peek(0); pops happen only inside the success branches):
two Numbers pop both and push the sum, two Strings pop both and push the
concatenation with the deeper (left) operand first, and any other pair raises
the runtime error "Operands must be two numbers or two strings." with the
operands still on the stack when it is detected. -/
theorem C6_add_semantics :
    (∀ (a b : Rat) (rest : List Value) (g : List (String × Value)) (o e : List String),
        step addChunk ⟨0, Value.num b :: Value.num a :: rest, g, o, e⟩ =
          StepResult.next ⟨1, Value.num (a + b) :: rest, g, o, e⟩) ∧
    (∀ (x y : String) (rest : List Value) (g : List (String × Value)) (o e : List String),
        step addChunk ⟨0, Value.str y :: Value.str x :: rest, g, o, e⟩ =
          StepResult.next ⟨1, Value.str (x ++ y) :: rest, g, o, e⟩) ∧
    (∀ (l r : Value) (rest : List Value) (g : List (String × Value)) (o : List String),
        addVisit l r = none →
          step addChunk ⟨0, r :: l :: rest, g, o, []⟩ =
            StepResult.halt InterpretResult.runtimeError
              ⟨1, [], g, o,
               ["Operands must be two numbers or two strings.\n",
                "[line " ++ toString (5 : Nat) ++ "] in script\n"]⟩) := by
  refine ⟨fun a b rest g o e => rfl, fun x y rest g o e => rfl, ?_⟩
  intro l r rest g o h
  cases l <;> cases r <;> first
    | rfl
    | exact absurd h (by simp [addVisit])

/-- Witness for C6 at the concrete operand pair Bool(true) (left) and Number 1
(right). -/
theorem C6_add_semantics_witness :
    addVisit (Value.bool true) (Value.num 1) = none ∧
    step addChunk ⟨0, [Value.num 1, Value.bool true], [], [], []⟩ =
      StepResult.halt InterpretResult.runtimeError
        ⟨1, [], [], [],
         ["Operands must be two numbers or two strings.\n", "[line 5] in script\n"]⟩ :=
  ⟨rfl, (C6_add_semantics.2.2 (Value.bool true) (Value.num 1) [] [] [] rfl).trans (by decide)⟩

/-- C7 counterexample: at an Identifier token with lexeme x the source writes
" at x" with no quotes around the lexeme, so the claimed format with the lexeme
enclosed in single quotes does not match. -/
theorem C7_counterexample :
    (errorAt ⟨false, false⟩ ⟨TokenType.Identifier, "x", 1⟩ "msg").2 =
      ["[line 1] Error at x: msg\n"] ∧
    (errorAt ⟨false, false⟩ ⟨TokenType.Identifier, "x", 1⟩ "msg").2 ≠
      ["[line 1] Error at \x27x\x27: msg\n"] := by
  decide

/-- C7 as amended: every reported diagnostic (panic mode clear) is exactly
"[line N] Error<loc>: <message>\n" where <loc> is " at end" for an Eof token,
empty for an Error token, and " at <lexeme>" - the lexeme NOT enclosed in
quotes - otherwise; panicMode and hadError are set. -/
theorem C7_format (p : ParserFlags) (tok : Token) (msg : String)
    (h : p.panicMode = false) :
    errorAt p tok msg =
      (⟨true, true⟩,
       ["[line " ++ toString tok.line ++ "] Error" ++
        (if tok.type = TokenType.Eof then " at end"
         else if tok.type = TokenType.Error then "" else " at " ++ tok.text) ++
        ": " ++ msg ++ "\n"]) := by
  simp [errorAt, h]

/-- Witness for C7_format at a concrete Eof token. -/
theorem C7_format_witness :
    (⟨false, false⟩ : ParserFlags).panicMode = false ∧
    errorAt ⟨false, false⟩ ⟨TokenType.Eof, "", 3⟩ "Expected expression." =
      (⟨true, true⟩, ["[line 3] Error at end: Expected expression.\n"]) :=
  ⟨rfl, (C7_format ⟨false, false⟩ ⟨TokenType.Eof, "", 3⟩ "Expected expression." rfl).trans
    (by decide)⟩

/-- C8: confirmed.  EQUAL pops both operands and pushes a Bool; Values of
different cases compare false (no error path exists for EQUAL), and Values of
the same case compare by payload: numeric, boolean, byte-wise string, and
Nil-vs-Nil true. -/
theorem C8_equal :
    (∀ (a b : Value) (rest : List Value) (g : List (String × Value)) (o e : List String),
        step eqChunk ⟨0, a :: b :: rest, g, o, e⟩ =
          StepResult.next ⟨1, Value.bool (valueEq a b) :: rest, g, o, e⟩) ∧
    (∀ a b : Value, sameCase a b = false → valueEq a b = false) ∧
    (∀ x y : Rat, valueEq (Value.num x) (Value.num y) = (x == y)) ∧
    (∀ p q : Bool, valueEq (Value.bool p) (Value.bool q) = (p == q)) ∧
    (∀ s t : String, valueEq (Value.str s) (Value.str t) = (s == t)) ∧
    valueEq Value.nil Value.nil = true := by
  refine ⟨fun a b rest g o e => rfl, ?_, fun x y => rfl, fun p q => rfl,
    fun s t => rfl, rfl⟩
  intro a b h
  cases a <;> cases b <;> simp_all [sameCase, valueEq]

/-- Witness for C8 at the cross-case pair Number 1 and String "". -/
theorem C8_equal_witness :
    sameCase (Value.num 1) (Value.str "") = false ∧
    valueEq (Value.num 1) (Value.str "") = false :=
  ⟨rfl, C8_equal.2.1 (Value.num 1) (Value.str "") rfl⟩

/-- C9: confirmed.  With the left operand pushed before the right one (so the
right operand is on top), SUBTRACT pushes left - right, DIVIDE pushes
left / right, GREATER pushes left > right and LESS pushes left < right. -/
theorem C9_operand_order :
    ∀ (l r : Rat) (rest : List Value) (g : List (String × Value)) (o e : List String),
      step (binChunk 14) ⟨0, Value.num r :: Value.num l :: rest, g, o, e⟩ =
        StepResult.next ⟨1, Value.num (l - r) :: rest, g, o, e⟩ ∧
      step (binChunk 16) ⟨0, Value.num r :: Value.num l :: rest, g, o, e⟩ =
        StepResult.next ⟨1, Value.num (l / r) :: rest, g, o, e⟩ ∧
      step (binChunk 11) ⟨0, Value.num r :: Value.num l :: rest, g, o, e⟩ =
        StepResult.next ⟨1, Value.bool (decide (l > r)) :: rest, g, o, e⟩ ∧
      step (binChunk 12) ⟨0, Value.num r :: Value.num l :: rest, g, o, e⟩ =
        StepResult.next ⟨1, Value.bool (decide (l < r)) :: rest, g, o, e⟩ :=
  fun _ _ _ _ _ _ => ⟨rfl, rfl, rfl, rfl⟩

/-- C10: confirmed.  When compilation fails, VM::interpret returns COMPILE_ERROR
and hands back the VM state untouched: no bytecode ran, the globals table and
the stdout transcript are exactly the ones passed in. -/
theorem C10_interpret_compile_fail (compile : String → Option Chunk) (fuel : Nat)
    (vm : VMState) (src : String) (h : compile src = none) :
    interpret compile fuel vm src = some (InterpretResult.compileError, vm) := by
  unfold interpret
  rw [h]

/-- Witness for C10 with a compile function that always fails. -/
theorem C10_interpret_witness :
    (fun _ : String => (none : Option Chunk)) "" = none ∧
    interpret (fun _ : String => (none : Option Chunk)) 5 ⟨0, [], [], [], []⟩ "" =
      some (InterpretResult.compileError, ⟨0, [], [], [], []⟩) :=
  ⟨rfl, C10_interpret_compile_fail (fun _ => none) 5 ⟨0, [], [], [], []⟩ "" rfl⟩

end Lox
